import Mathlib

/-!
Verification development for media_meta_inspector (src/main.py).

The program downloads an audio file from a URL and reports structural audio
metadata. The core routine get_mp3_metadata is embedded here as follows:

* Python float values (audio length in seconds) are modelled as exact
  rationals; the operations the code applies to them (divmod with the
  positive constant 60, truncation by int, comparison) coincide with the
  rational operations on all inputs considered here.
* Python string formatting is modelled by explicit string functions:
  pad2 models the 02d format specifier, formatMB models the .2f float
  format (two decimals, round half to even) applied to size/(1024*1024).
* The mutagen parser calls are opaque external capabilities; a parser
  invocation is modelled by its observable outcome (ParseOutcome): a
  returned object carrying optional structural info, the distinguished
  HeaderNotFoundError, or any other exception carrying a message.
* Network and filesystem effects are modelled by a Scenario record
  (content-length header, streamed download outcome, parser outcomes);
  get_mp3_metadata maps a Scenario to the returned report together with
  the state of the temporary file after the call (RunResult).
-/

/-- Python truncation toward zero, int(q), for an exact rational. -/
def pyInt (q : ℚ) : ℤ :=
  if 0 ≤ q then ⌊q⌋ else -⌊-q⌋

/-- Python divmod(x, y) on floats, modelled exactly: floor quotient and
remainder x - y * (x // y). -/
def pyDivmod (x y : ℚ) : ℚ × ℚ :=
  ((⌊x / y⌋ : ℤ), x - y * ((⌊x / y⌋ : ℤ) : ℚ))

/-- Python format specifier 02d: zero-pad to width 2. -/
def pad2 (n : ℤ) : String :=
  if 0 ≤ n ∧ n < 10 then "0" ++ toString n else toString n

/-- Round a rational to the nearest integer, ties to even, as float
formatting does. -/
def roundHalfEven (q : ℚ) : ℤ :=
  if q - (⌊q⌋ : ℚ) < 1 / 2 then ⌊q⌋
  else if (1 : ℚ) / 2 < q - (⌊q⌋ : ℚ) then ⌊q⌋ + 1
  else if ⌊q⌋ % 2 = 0 then ⌊q⌋ else ⌊q⌋ + 1

/-- Model of the f-string fragment total_size / (1024 * 1024) formatted
with .2f, as used in every file_size field of src/main.py. -/
def formatMB (total_size : ℤ) : String :=
  let centi : ℤ := roundHalfEven ((total_size : ℚ) * 100 / (1024 * 1024))
  toString (centi / 100) ++ "." ++ pad2 (centi % 100)

/-- Structural audio fields a mutagen info object may expose
(src/main.py reads them through hasattr and getattr, so each field is
independently optional). -/
structure StructuralInfo where
  length : Option ℚ
  channels : Option ℤ
  sample_rate : Option ℤ
  bitrate : Option ℤ
deriving DecidableEq

/-- The metadata dictionary returned on the non-error paths of
get_mp3_metadata: five formatted string fields. -/
structure MetadataReport where
  file_size : String
  duration : String
  channels : String
  sample_rate : String
  bitrate : String
deriving DecidableEq

/-- Result dictionary of get_mp3_metadata: either the five metadata keys
or the single error key. -/
inductive Report where
  | metadata (r : MetadataReport) : Report
  | error (msg : String) : Report
deriving DecidableEq

/-- Embedding of the field normalization on the primary path of
get_mp3_metadata (src/main.py lines 61 to 100). -/
def normalizePrimary (total_size : ℤ) (info : StructuralInfo) : MetadataReport :=
  { file_size := formatMB total_size ++ " MB"
    duration :=
      match info.length with
      | some l => toString (pyInt (pyDivmod l 60).1) ++ ":" ++ pad2 (pyInt (pyDivmod l 60).2)
      | none => "Unknown"
    channels :=
      match info.channels with
      | some c => if c = 1 then "Mono" else if c = 2 then "Stereo" else toString c ++ " channels"
      | none => "Unknown" ++ " channels"
    sample_rate :=
      match info.sample_rate with
      | some sr => toString sr ++ " Hz"
      | none => "Unknown"
    bitrate :=
      match info.bitrate with
      | some b => if Int.fdiv b 1000 ≠ 0 then toString (Int.fdiv b 1000) ++ " kbps" else "Unknown"
      | none => "Unknown" }

/-- Embedding of the field normalization on the fallback path of
get_mp3_metadata (src/main.py lines 110 to 141); the source duplicates
the primary normalization code verbatim. -/
def normalizeFallback (total_size : ℤ) (info : StructuralInfo) : MetadataReport :=
  { file_size := formatMB total_size ++ " MB"
    duration :=
      match info.length with
      | some l => toString (pyInt (pyDivmod l 60).1) ++ ":" ++ pad2 (pyInt (pyDivmod l 60).2)
      | none => "Unknown"
    channels :=
      match info.channels with
      | some c => if c = 1 then "Mono" else if c = 2 then "Stereo" else toString c ++ " channels"
      | none => "Unknown" ++ " channels"
    sample_rate :=
      match info.sample_rate with
      | some sr => toString sr ++ " Hz"
      | none => "Unknown"
    bitrate :=
      match info.bitrate with
      | some b => if Int.fdiv b 1000 ≠ 0 then toString (Int.fdiv b 1000) ++ " kbps" else "Unknown"
      | none => "Unknown" }

/-- The degraded report built in the HeaderNotFoundError handler of
get_mp3_metadata (src/main.py lines 146 to 154). -/
def headersNotFoundReport (total_size : ℤ) : MetadataReport :=
  { file_size := formatMB total_size ++ " MB"
    duration := "Unknown (headers not found)"
    channels := "Unknown"
    sample_rate := "Unknown"
    bitrate := "Unknown" }

/-- Observable outcome of invoking a mutagen parser on the temp file:
an object with optional usable structural info (None object, missing
info attribute and None info all collapse to success none), the
distinguished HeaderNotFoundError, or any other exception with its
message str(e). -/
inductive ParseOutcome where
  | success (info : Option StructuralInfo) : ParseOutcome
  | headerNotFound : ParseOutcome
  | exn (msg : String) : ParseOutcome
deriving DecidableEq

/-- Embedding of the extraction block of get_mp3_metadata (src/main.py
lines 41 to 157): the try body covering the primary attempt, the generic
fallback attempt, the HeaderNotFoundError handler and the generic
exception handler. -/
def runExtract (total_size : ℤ) (primary fallback : ParseOutcome) : Report :=
  match primary with
  | .success (some info) => .metadata (normalizePrimary total_size info)
  | .success none =>
    match fallback with
    | .success (some info) => .metadata (normalizeFallback total_size info)
    | .success none =>
      .error "Could not extract metadata. The file may have non-standard formatting or may not be a valid audio file."
    | .headerNotFound => .metadata (headersNotFoundReport total_size)
    | .exn msg => .error ("Error extracting metadata: " ++ msg)
  | .headerNotFound => .metadata (headersNotFoundReport total_size)
  | .exn msg => .error ("Error extracting metadata: " ++ msg)

/-- The mutagen parser classes get_mp3_metadata dispatches to. -/
inductive AudioParser where
  | mp3 : AudioParser
  | mp4 : AudioParser
  | flac : AudioParser
  | oggvorbis : AudioParser
  | wave : AudioParser
  | generic : AudioParser
deriving DecidableEq

/-- Embedding of the extension dispatch of get_mp3_metadata (src/main.py
lines 43 to 55). -/
def selectParser (ext : String) : AudioParser :=
  if ext = ".mp3" then .mp3
  else if ext = ".m4a" ∨ ext = ".mp4" then .mp4
  else if ext = ".flac" then .flac
  else if ext = ".ogg" then .oggvorbis
  else if ext = ".wav" then .wave
  else .generic

/-- Content-length header of the HEAD probe response: absent, a
well-formed integer value, or a string that int() rejects, in which case
msg is the str of the raised ValueError. -/
inductive SizeHeader where
  | absent : SizeHeader
  | value (n : ℤ) : SizeHeader
  | malformed (msg : String) : SizeHeader
deriving DecidableEq

/-- Embedding of src/main.py line 21: headers.get with default 0
followed by int(); an unparseable header raises. -/
def parseContentLength : SizeHeader → Except String ℤ
  | .absent => .ok 0
  | .value n => .ok n
  | .malformed msg => .error msg

/-- Outcome of streaming the GET body into the temporary file
(src/main.py lines 36 to 39): completes, or raises with message str(e). -/
inductive StreamResult where
  | ok : StreamResult
  | fails (msg : String) : StreamResult
deriving DecidableEq

/-- An invocation scenario of get_mp3_metadata: the environment
behaviour it observes. The fallback field is the outcome the generic
File parser would produce if invoked. -/
structure Scenario where
  sizeHeader : SizeHeader
  stream : StreamResult
  primary : ParseOutcome
  fallback : ParseOutcome
deriving DecidableEq

/-- Returned report of get_mp3_metadata together with the filesystem
facts about the temporary file after the call returns. -/
structure RunResult where
  report : Report
  tempCreated : Bool
  tempLeft : Bool
deriving DecidableEq

/-- Embedding of get_mp3_metadata (src/main.py lines 17 to 164).
The outer try catches every exception and returns an error dictionary.
The temporary file is created after the content-length header has been
parsed; the inner try/finally (lines 41 to 161) removes it, but an
exception raised while streaming the body into the file (lines 36 to 39)
propagates to the outer handler without reaching that finally block. -/
def get_mp3_metadata (sc : Scenario) : RunResult :=
  match parseContentLength sc.sizeHeader with
  | .error msg =>
    { report := .error ("Error retrieving metadata: " ++ msg)
      tempCreated := false
      tempLeft := false }
  | .ok total_size =>
    match sc.stream with
    | .fails msg =>
      { report := .error ("Error retrieving metadata: " ++ msg)
        tempCreated := true
        tempLeft := true }
    | .ok =>
      { report := runExtract total_size sc.primary sc.fallback
        tempCreated := true
        tempLeft := false }

/-- Spec-side definition for the refinement claim: the report a direct
fallback-only parse yielding structural info would produce, the fields
normalized by the same rules as the primary path. -/
def fallbackOnlyReport (total_size : ℤ) (info : StructuralInfo) : Report :=
  .metadata (normalizePrimary total_size info)

/-! Helper lemmas. -/

theorem pyInt_intCast (n : ℤ) : pyInt ((n : ℚ)) = n := by
  unfold pyInt
  split
  · exact Int.floor_intCast n
  · rw [← Int.cast_neg, Int.floor_intCast]
    ring

theorem pyInt_of_nonneg {q : ℚ} (h : 0 ≤ q) : pyInt q = ⌊q⌋ := if_pos h

theorem pyDivmod_snd_nonneg (x : ℚ) : 0 ≤ (pyDivmod x 60).2 := by
  unfold pyDivmod
  have h : ((⌊x / 60⌋ : ℤ) : ℚ) ≤ x / 60 := Int.floor_le (x / 60)
  have h2 : (60 : ℚ) * ((⌊x / 60⌋ : ℤ) : ℚ) ≤ 60 * (x / 60) :=
    mul_le_mul_of_nonneg_left h (by norm_num)
  have h3 : (60 : ℚ) * (x / 60) = x := by ring
  simp only
  linarith

theorem pyDivmod_snd_floor (x : ℚ) :
    ⌊(pyDivmod x 60).2⌋ = ⌊x⌋ - 60 * ⌊x / 60⌋ := by
  unfold pyDivmod
  simp only
  rw [show x - 60 * ((⌊x / 60⌋ : ℤ) : ℚ) = x - ((60 * ⌊x / 60⌋ : ℤ) : ℚ) by push_cast; ring]
  rw [Int.floor_sub_int]

theorem duration_formula (l : ℚ) :
    toString (pyInt (pyDivmod l 60).1) ++ ":" ++ pad2 (pyInt (pyDivmod l 60).2)
      = toString ⌊l / 60⌋ ++ ":" ++ pad2 (⌊l⌋ - 60 * ⌊l / 60⌋) := by
  rw [show (pyDivmod l 60).1 = ((⌊l / 60⌋ : ℤ) : ℚ) from rfl, pyInt_intCast,
    pyInt_of_nonneg (pyDivmod_snd_nonneg l), pyDivmod_snd_floor]

theorem fdiv1000_eq_zero {b : ℤ} (h0 : 0 ≤ b) (h1 : b < 1000) : Int.fdiv b 1000 = 0 := by
  rw [Int.fdiv_eq_ediv _ (by norm_num)]
  exact Int.ediv_eq_zero_of_lt h0 h1

theorem fdiv1000_pos {b : ℤ} (h : 1000 ≤ b) : 0 < Int.fdiv b 1000 := by
  rw [Int.fdiv_eq_ediv _ (by norm_num)]
  have h2 : (1 : ℤ) ≤ b / 1000 :=
    (Int.le_ediv_iff_mul_le (by norm_num : (0 : ℤ) < 1000)).mpr (by linarith)
  omega

theorem formatMB_zero : formatMB 0 = "0.00" := by
  have h : roundHalfEven (((0 : ℤ) : ℚ) * 100 / (1024 * 1024)) = 0 := by
    norm_num [roundHalfEven]
  simp only [formatMB, h]
  decide

theorem report_shape (r : Report) :
    (∃ m, r = Report.metadata m) ∨ (∃ s, r = Report.error s) := by
  cases r
  · exact Or.inl ⟨_, rfl⟩
  · exact Or.inr ⟨_, rfl⟩

/-! Claim theorems. -/

/-- C1 counterexample: a structural info with the positive bitrate 500
yields the report bitrate Unknown, not 0 kbps as floor division of 500
by 1000 followed by the kbps suffix would demand. -/
theorem bitrate_positive_counterexample :
    (normalizePrimary 0 ⟨none, none, none, some 500⟩).bitrate = "Unknown"
  ∧ (normalizePrimary 0 ⟨none, none, none, some 500⟩).bitrate ≠ "0 kbps" := by
  constructor <;> decide

/-- C1 (amended): an absent bitrate and a bitrate of exactly 0 normalize
to Unknown; a positive bitrate b normalizes to floor(b/1000) kbps when
that quotient is nonzero (b at least 1000), and to Unknown when the
quotient is zero (positive b below 1000), because the code tests the
truthiness of the already divided value. -/
theorem bitrate_normalization_amended (ts : ℤ) (info : StructuralInfo) (b : ℤ) :
    ((info.bitrate = none ∨ info.bitrate = some 0) →
      (normalizePrimary ts info).bitrate = "Unknown")
  ∧ (info.bitrate = some b → 0 < b → b < 1000 →
      (normalizePrimary ts info).bitrate = "Unknown")
  ∧ (info.bitrate = some b → 1000 ≤ b →
      (normalizePrimary ts info).bitrate = toString (Int.fdiv b 1000) ++ " kbps") := by
  refine ⟨?_, ?_, ?_⟩
  · rintro (h | h) <;> simp [normalizePrimary, h]
  · intro h hb hb'
    have hz : Int.fdiv b 1000 = 0 := fdiv1000_eq_zero (le_of_lt hb) hb'
    simp [normalizePrimary, h, hz]
  · intro h hb
    have hz : Int.fdiv b 1000 ≠ 0 := ne_of_gt (fdiv1000_pos hb)
    simp [normalizePrimary, h, hz]

/-- C1 witness: bitrate 192000 reports as 192 kbps. -/
theorem bitrate_normalization_witness :
    (normalizePrimary 0 ⟨none, none, none, some 192000⟩).bitrate
      = toString (Int.fdiv 192000 1000) ++ " kbps" :=
  (bitrate_normalization_amended 0 ⟨none, none, none, some 192000⟩ 192000).2.2 rfl (by decide)

/-- C2 counterexample: an absent channel count yields the report
channels field Unknown channels, not the bare Unknown the claim states. -/
theorem channel_absent_counterexample :
    (normalizePrimary 0 ⟨none, none, none, none⟩).channels = "Unknown channels"
  ∧ (normalizePrimary 0 ⟨none, none, none, none⟩).channels ≠ "Unknown" := by
  constructor <;> decide

/-- C2 (amended): channel count 1 yields Mono, 2 yields Stereo, any
other integer n yields n channels, and an absent channel count yields
the string Unknown channels (the string Unknown interpolated into the
channels suffix), not the bare Unknown. -/
theorem channel_normalization_amended (ts : ℤ) (info : StructuralInfo) (n : ℤ) :
    (info.channels = some 1 → (normalizePrimary ts info).channels = "Mono")
  ∧ (info.channels = some 2 → (normalizePrimary ts info).channels = "Stereo")
  ∧ (info.channels = some n → n ≠ 1 → n ≠ 2 →
      (normalizePrimary ts info).channels = toString n ++ " channels")
  ∧ (info.channels = none →
      (normalizePrimary ts info).channels = "Unknown channels") := by
  refine ⟨?_, ?_, ?_, ?_⟩
  · intro h; simp [normalizePrimary, h]
  · intro h; simp [normalizePrimary, h]
  · intro h h1 h2; simp [normalizePrimary, h, h1, h2]
  · intro h; simp only [normalizePrimary, h]; decide

/-- C2 witness: channel count 6 reports as 6 channels. -/
theorem channel_normalization_witness :
    (normalizePrimary 0 ⟨none, some 6, none, none⟩).channels = toString (6 : ℤ) ++ " channels" :=
  (channel_normalization_amended 0 ⟨none, some 6, none, none⟩ 6).2.2.1 rfl
    (by decide) (by decide)

/-- C3 counterexample: a malformed content-length header makes int()
raise; the outer handler turns the invocation into an error record, so
the bad header alone does produce an error rather than a 0.00 MB report. -/
theorem size_header_malformed_counterexample :
    (get_mp3_metadata
        ⟨.malformed "invalid literal for int with base 10", .ok, .success none, .success none⟩).report
      = .error ("Error retrieving metadata: " ++ "invalid literal for int with base 10") := rfl

/-- C3 (amended): an absent size header is taken as total size 0 and the
run proceeds, every size field formatting as 0.00 MB; a malformed header
instead raises inside int() and the operation returns an ErrorReport
carrying the cause, produced by the outer handler (so no exception
escapes, but the outcome is an error, not a 0.00 MB report). -/
theorem size_header_amended (st : StreamResult) (p f : ParseOutcome)
    (msg : String) (i : StructuralInfo) :
    get_mp3_metadata ⟨.absent, st, p, f⟩ = get_mp3_metadata ⟨.value 0, st, p, f⟩
  ∧ (normalizePrimary 0 i).file_size = "0.00 MB"
  ∧ (headersNotFoundReport 0).file_size = "0.00 MB"
  ∧ (get_mp3_metadata ⟨.malformed msg, st, p, f⟩).report
      = .error ("Error retrieving metadata: " ++ msg) := by
  refine ⟨rfl, ?_, ?_, rfl⟩
  · simp only [normalizePrimary]
    rw [formatMB_zero]
    decide
  · simp only [headersNotFoundReport]
    rw [formatMB_zero]
    decide

/-- C4 counterexample: an exception raised while streaming the download
into the already created temporary file propagates to the outer handler
without reaching the inner finally block, so the temporary file is still
present after the operation returns. -/
theorem temp_cleanup_counterexample :
    (get_mp3_metadata
        ⟨.absent, .fails "connection reset during download", .success none, .success none⟩).tempCreated
      = true
  ∧ (get_mp3_metadata
        ⟨.absent, .fails "connection reset during download", .success none, .success none⟩).tempLeft
      = true := ⟨rfl, rfl⟩

/-- C4 (amended): whenever the streamed download completes, the
temporary file is removed before the operation returns on every exit
path (success, degraded success, parse error, and any exception raised
during parsing); if the file was never created nothing is left behind;
but an exception raised while the download is being streamed into the
file leaves the temporary file behind. -/
theorem temp_cleanup_amended (sc : Scenario) :
    (sc.stream = .ok → (get_mp3_metadata sc).tempLeft = false)
  ∧ ((get_mp3_metadata sc).tempCreated = false → (get_mp3_metadata sc).tempLeft = false)
  ∧ (∀ msg, sc.stream = .fails msg → (get_mp3_metadata sc).tempCreated = true →
      (get_mp3_metadata sc).tempLeft = true) := by
  obtain ⟨hdr, st, p, f⟩ := sc
  cases hdr <;> cases st <;> simp [get_mp3_metadata, parseContentLength]

/-- C4 witness: a completed download with a failed parse still removes
the temporary file. -/
theorem temp_cleanup_witness :
    (get_mp3_metadata ⟨.absent, .ok, .exn "corrupt data", .success none⟩).tempLeft = false :=
  (temp_cleanup_amended ⟨.absent, .ok, .exn "corrupt data", .success none⟩).1 rfl

/-- C5 (confirmed): when the primary parser raises HeaderNotFoundError,
the operation returns a non-error metadata report whose file size is the
probe-derived size, whose duration is exactly Unknown (headers not
found), and whose channels, sample rate and bitrate are all Unknown. -/
theorem header_not_found_degraded (ts : ℤ) (f : ParseOutcome) :
    get_mp3_metadata ⟨.value ts, .ok, .headerNotFound, f⟩
      = ⟨.metadata (headersNotFoundReport ts), true, false⟩
  ∧ headersNotFoundReport ts
      = ⟨formatMB ts ++ " MB", "Unknown (headers not found)", "Unknown", "Unknown", "Unknown"⟩ :=
  ⟨rfl, rfl⟩

/-- C6 (confirmed): when the primary parser yields no usable structural
info and the generic fallback parser yields usable info, the final
report equals the report a fallback-only parse would produce, the
fallback fields being normalized by exactly the rules of the primary
path. -/
theorem fallback_refinement (ts : ℤ) (info : StructuralInfo) :
    runExtract ts (.success none) (.success (some info)) = fallbackOnlyReport ts info
  ∧ normalizeFallback ts info = normalizePrimary ts info := ⟨rfl, rfl⟩

/-- C7 (confirmed): the extension .mp3 selects the MP3 parser, .m4a and
.mp4 the MP4 parser, .flac the FLAC parser, .ogg the OggVorbis parser,
.wav the WAV parser, and every other extension token, the empty token
included, selects the generic auto-detecting parser. -/
theorem format_dispatch (ext : String) :
    selectParser ".mp3" = .mp3
  ∧ selectParser ".m4a" = .mp4
  ∧ selectParser ".mp4" = .mp4
  ∧ selectParser ".flac" = .flac
  ∧ selectParser ".ogg" = .oggvorbis
  ∧ selectParser ".wav" = .wave
  ∧ (ext ≠ ".mp3" → ext ≠ ".m4a" → ext ≠ ".mp4" → ext ≠ ".flac" → ext ≠ ".ogg" →
      ext ≠ ".wav" → selectParser ext = .generic) := by
  refine ⟨rfl, rfl, rfl, rfl, rfl, rfl, ?_⟩
  intro h1 h2 h3 h4 h5 h6
  unfold selectParser
  rw [if_neg h1, if_neg (fun hor : ext = ".m4a" ∨ ext = ".mp4" => hor.elim h2 h3),
    if_neg h4, if_neg h5, if_neg h6]

/-- C7 witness: an unsupported extension and the empty extension select
the generic parser. -/
theorem format_dispatch_witness :
    selectParser ".aac" = .generic ∧ selectParser "" = .generic :=
  ⟨(format_dispatch ".aac").2.2.2.2.2.2 (by decide) (by decide) (by decide) (by decide)
      (by decide) (by decide),
    (format_dispatch "").2.2.2.2.2.2 (by decide) (by decide) (by decide) (by decide)
      (by decide) (by decide)⟩

/-- C8 (confirmed): a structural info exposing a nonnegative length L in
seconds reports the duration as whole minutes (floor of L over 60,
which is truncation for nonnegative L) and remaining whole seconds
(truncated), separated by a colon with the seconds zero-padded to two
digits and no hour rollover; without a length the duration is Unknown;
in particular 125.7 seconds gives 2:05, 59.99 seconds gives 0:59, and
3600 seconds gives 60:00. -/
theorem duration_normalization (ts : ℤ) (info : StructuralInfo) (L : ℚ) :
    (0 ≤ L → info.length = some L →
      (normalizePrimary ts info).duration
        = toString ⌊L / 60⌋ ++ ":" ++ pad2 (⌊L⌋ - 60 * ⌊L / 60⌋))
  ∧ (info.length = none → (normalizePrimary ts info).duration = "Unknown")
  ∧ (normalizePrimary ts ⟨some (1257 / 10), none, none, none⟩).duration = "2:05"
  ∧ (normalizePrimary ts ⟨some (5999 / 100), none, none, none⟩).duration = "0:59"
  ∧ (normalizePrimary ts ⟨some 3600, none, none, none⟩).duration = "60:00" := by
  refine ⟨?_, ?_, ?_, ?_, ?_⟩
  · intro _ hl
    simp only [normalizePrimary, hl]
    exact duration_formula L
  · intro hl
    simp [normalizePrimary, hl]
  · simp only [normalizePrimary]
    rw [duration_formula]
    have h1 : ⌊(1257 : ℚ) / 10 / 60⌋ = 2 := by rw [Int.floor_eq_iff]; norm_num
    have h2 : ⌊(1257 : ℚ) / 10⌋ = 125 := by rw [Int.floor_eq_iff]; norm_num
    rw [h1, h2]
    decide
  · simp only [normalizePrimary]
    rw [duration_formula]
    have h1 : ⌊(5999 : ℚ) / 100 / 60⌋ = 0 := by rw [Int.floor_eq_iff]; norm_num
    have h2 : ⌊(5999 : ℚ) / 100⌋ = 59 := by rw [Int.floor_eq_iff]; norm_num
    rw [h1, h2]
    decide
  · simp only [normalizePrimary]
    rw [duration_formula]
    have h1 : ⌊(3600 : ℚ) / 60⌋ = 60 := by rw [Int.floor_eq_iff]; norm_num
    have h2 : ⌊(3600 : ℚ)⌋ = 3600 := by rw [Int.floor_eq_iff]; norm_num
    rw [h1, h2]
    decide

/-- C8 witness: the general duration formula applied at 3600 seconds. -/
theorem duration_normalization_witness :
    (normalizePrimary 0 ⟨some 3600, none, none, none⟩).duration
      = toString ⌊(3600 : ℚ) / 60⌋ ++ ":" ++ pad2 (⌊(3600 : ℚ)⌋ - 60 * ⌊(3600 : ℚ) / 60⌋) :=
  (duration_normalization 0 ⟨some 3600, none, none, none⟩ 3600).1 (by norm_num) rfl

/-- C9 (confirmed): every parse exception other than HeaderNotFoundError
is caught at the extractor boundary and converted to an ErrorReport
whose message carries the cause description, both on the primary attempt
and on the fallback attempt, and every invocation returns either a
metadata record or an error record. -/
theorem extractor_no_raise (ts : ℤ) (p f : ParseOutcome) (sc : Scenario) :
    (∀ msg, p = .exn msg →
      runExtract ts p f = .error ("Error extracting metadata: " ++ msg))
  ∧ (∀ msg, p = .success none → f = .exn msg →
      runExtract ts p f = .error ("Error extracting metadata: " ++ msg))
  ∧ ((∃ m, (get_mp3_metadata sc).report = .metadata m)
      ∨ (∃ s, (get_mp3_metadata sc).report = .error s)) := by
  refine ⟨?_, ?_, report_shape _⟩
  · intro msg h
    subst h
    rfl
  · intro msg h h2
    subst h
    subst h2
    rfl

/-- C9 witness: a primary parse exception becomes an error record with
the cause in its message. -/
theorem extractor_no_raise_witness :
    runExtract 0 (.exn "unexpected parse failure") (.success none)
      = .error ("Error extracting metadata: " ++ "unexpected parse failure") :=
  (extractor_no_raise 0 (.exn "unexpected parse failure") (.success none)
      ⟨.absent, .ok, .success none, .success none⟩).1 "unexpected parse failure" rfl

/-- C10 (confirmed): the HeaderNotFoundError handler encloses the
fallback attempt as well, so a fallback parser raising the condition
after an empty primary result also yields the degraded report with known
file size, duration Unknown (headers not found), and all other fields
Unknown, exactly as for the primary attempt. -/
theorem fallback_header_not_found (ts : ℤ) :
    runExtract ts (.success none) .headerNotFound = .metadata (headersNotFoundReport ts)
  ∧ runExtract ts (.success none) .headerNotFound
      = runExtract ts .headerNotFound (.success none)
  ∧ headersNotFoundReport ts
      = ⟨formatMB ts ++ " MB", "Unknown (headers not found)", "Unknown", "Unknown", "Unknown"⟩ :=
  ⟨rfl, rfl, rfl⟩
